import Mathlib

/-!
Verification development for the rust-query repository (a client-side
data-fetch cache and retry orchestration engine).

The Rust sources are shallowly embedded: each Lean definition mirrors one
function of the repository (the source file and function are named in its
doc comment).  Stateful code becomes explicit state passing; machine
integers become `Nat` with explicit `% 2 ^ 32` where u32 overflow matters;
`Duration` values are total nanosecond counts, saturating at
`Duration::MAX`; `Rc`/`Arc` shared pointers are transparent; fallible code
returns `Option`/`Except`.  The async fetch orchestrator is embedded as a
fuel-indexed recursion whose suspension points (awaiting the query
function, awaiting the retry sleep) take an explicit environment update so
that interference from other tasks can be expressed.
-/

namespace RustQuery

/-! ## Durations

`std::time::Duration` is (u64 seconds, u32 nanoseconds < 10^9); we model a
duration as its total nanosecond count, a `Nat` bounded by `durMAX`.
`Duration::saturating_mul` saturates at `Duration::MAX`. -/

def durMAX : Nat := (2 ^ 64 - 1) * 1000000000 + 999999999

def durFromMillis (m : Nat) : Nat := m * 1000000

def durFromSecs (s : Nat) : Nat := s * 1000000000

def durSatMul (d k : Nat) : Nat := min (d * k) durMAX

/-- u32 arithmetic in the source wraps modulo `2 ^ 32` (release profile). -/
def u32MOD : Nat := 2 ^ 32

/-! ## Configuration options (src/config.rs) -/

/-- `SetOption<T>` (src/config.rs): a layered configuration option. -/
inductive SetOption (T : Type) where
  | Inherrit
  | Set (t : T)

/-- `SetOption::as_option` (src/config/resolve.rs). -/
def SetOption.as_option {T : Type} : SetOption T → Option T
  | .Inherrit => none
  | .Set s => some s

/-- `CacheTime` (src/config.rs): how long inactive entries stay cached. -/
inductive CacheTime where
  | Infinite
  | Duration (d : Nat)
deriving DecidableEq, Repr

/-- `CacheTime::const_default` (src/config.rs lines 78-85): 5 minutes. -/
def CacheTime.const_default : CacheTime := .Duration (durFromSecs (5 * 60))

/-- `NetworkMode` (src/config.rs). -/
inductive NetworkMode where
  | Online
  | Always
  | OfflineFirst
deriving DecidableEq, Repr

/-- `NetworkMode::const_default` (src/config.rs lines 109-112). -/
def NetworkMode.const_default : NetworkMode := .Online

/-- `NetworkMode::should_try` (src/config.rs lines 114-120).  `count` is the
attempt counter passed down from `fetch_with_arg`, which starts it at 1. -/
def NetworkMode.should_try (m : NetworkMode) (count : Nat) : Bool :=
  match m with
  | .Always => true
  | .OfflineFirst => count == 0
  | .Online => false

/-! ## Retry configuration (src/config/retry.rs) -/

/-- `RetryPolicy<E>` (src/config/retry.rs).  The `Func` closure is a Lean
function; counts are `u32` in the source, modelled as `Nat`. -/
inductive RetryPolicy (E : Type) where
  | Func (f : Nat → E → Bool)
  | Infinite
  | Num (n : Nat)

/-- `RetryDelay<E>` (src/config/retry.rs); durations in nanoseconds. -/
inductive RetryDelay (E : Type) where
  | Backoff (initial maximum : Nat)
  | Always (d : Nat)
  | DelayFn (f : Nat → E → Nat)

/-- `RetryConfig<E>` (src/config/retry.rs). -/
structure RetryConfig (E : Type) where
  policy : RetryPolicy E
  delay : RetryDelay E

/-- `RetryPolicy::const_default` (src/config/retry.rs lines 55-62). -/
def RetryPolicy.const_default {E : Type} : RetryPolicy E := .Num 3

/-- `RetryDelay::const_default` (src/config/retry.rs lines 117-127):
backoff starting at 1000 ms, maximum 30 s. -/
def RetryDelay.const_default {E : Type} : RetryDelay E :=
  .Backoff (durFromMillis 1000) (durFromSecs 30)

/-- `RetryConfig::const_default` (src/config/retry.rs lines 160-169). -/
def RetryConfig.const_default {E : Type} : RetryConfig E :=
  ⟨RetryPolicy.const_default, RetryDelay.const_default⟩

/-- `RetryConfig::retry_delay` (src/config/retry.rs lines 242-261).
Returns `some delay` when the policy authorizes a retry for the 1-based
`failure_count`, `none` otherwise.  In the `Backoff` arm the source
computes `2_u32.pow(failure_count.saturating_sub(1))`: a `u32` power that
wraps modulo `2 ^ 32` on overflow (release profile; debug builds panic),
then `Duration::saturating_mul` and `min` with the maximum. -/
def RetryConfig.retry_delay {E : Type} (cfg : RetryConfig E)
    (failure_count : Nat) (error : E) : Option Nat :=
  let authorized : Bool :=
    match cfg.policy with
    | .Func f => f failure_count error
    | .Infinite => true
    | .Num n => decide (failure_count ≤ n)
  if authorized then
    some (match cfg.delay with
      | .Always d => d
      | .Backoff initial maximum =>
          min (durSatMul initial ((2 ^ (failure_count - 1)) % u32MOD)) maximum
      | .DelayFn f => f failure_count error)
  else none

/-! ## Per-action and per-client option layers

`QueryOpts` (src/query.rs) and `MutationOpts` (src/mutation.rs) carry the
same three fields; they are embedded as one structure `ActionOpts`, with
the `ClientAction::action_type` distinction (src/config/resolve.rs)
passed explicitly as an `ActionType`. -/

structure ActionOpts (E : Type) where
  cache_time : SetOption CacheTime
  network_mode : SetOption NetworkMode
  retry : SetOption (RetryConfig E)

/-- `QueryOpts::new` / `MutationOpts::new`: every field `Inherrit`. -/
def ActionOpts.new {E : Type} : ActionOpts E := ⟨.Inherrit, .Inherrit, .Inherrit⟩

/-- `ClientOpts` (src/client.rs lines 45-57). -/
structure ClientOpts (E : Type) where
  cache_time : SetOption CacheTime
  network_mode : SetOption NetworkMode
  retry : SetOption (RetryConfig E)
  query : Option (ActionOpts E)
  mutation : Option (ActionOpts E)

/-- `ClientOpts::new` (src/client.rs lines 85-97): inherit everything. -/
def ClientOpts.new {E : Type} : ClientOpts E :=
  ⟨.Inherrit, .Inherrit, .Inherrit, none, none⟩

/-- `ActionType` (src/config/resolve.rs lines 128-131). -/
inductive ActionType where
  | Query
  | Mutation

/-- The per-category layer consulted by `resolve_option_inner`
(src/config/resolve.rs lines 45-60): `client.query` for queries,
`client.mutation` for mutations. -/
def categoryOpts {E : Type} (client : ClientOpts E) (atype : ActionType) :
    Option (ActionOpts E) :=
  match atype with
  | .Query => client.query
  | .Mutation => client.mutation

/-- `resolve_option_inner` (src/config/resolve.rs lines 32-67),
specialized to `ConfigOption::CacheTime` (the source dispatches on a
`ConfigOption` tag through `GetOption::get` and downcasting; the typed
embedding specializes per option kind).  Tries the action's own option,
then the client's per-category layer, then the client's global option. -/
def resolve_cache_time_inner {E : Type} (client : ClientOpts E)
    (action : ActionOpts E) (atype : ActionType) : Option CacheTime :=
  match action.cache_time.as_option with
  | some o => some o
  | none =>
    match (categoryOpts client atype).bind (fun c => c.cache_time.as_option) with
    | some o => some o
    | none => client.cache_time.as_option

/-- `resolve_option` (src/config/resolve.rs lines 18-30) for
`ConfigOption::CacheTime`: falls back on `CacheTime::default()`. -/
def resolve_cache_time {E : Type} (client : ClientOpts E)
    (action : ActionOpts E) (atype : ActionType) : CacheTime :=
  (resolve_cache_time_inner client action atype).getD CacheTime.const_default

/-- `resolve_option_inner` (src/config/resolve.rs lines 32-67),
specialized to `ConfigOption::NetworkMode`. -/
def resolve_network_mode_inner {E : Type} (client : ClientOpts E)
    (action : ActionOpts E) (atype : ActionType) : Option NetworkMode :=
  match action.network_mode.as_option with
  | some o => some o
  | none =>
    match (categoryOpts client atype).bind (fun c => c.network_mode.as_option) with
    | some o => some o
    | none => client.network_mode.as_option

/-- `resolve_option` (src/config/resolve.rs lines 18-30) for
`ConfigOption::NetworkMode`: falls back on `NetworkMode::default()`. -/
def resolve_network_mode {E : Type} (client : ClientOpts E)
    (action : ActionOpts E) (atype : ActionType) : NetworkMode :=
  (resolve_network_mode_inner client action atype).getD NetworkMode.const_default

/-- `resolve_retry` (src/config/resolve.rs lines 83-110): the query's own
retry option, then `client.query.retry`, then `client.retry`, then
`RetryConfig::default()`.  The source wraps the result in `RetryType`
(Concrete vs TraitObject) purely to manage the error type; with a single
error type the wrapper disappears. -/
def resolve_retry {E : Type} (client : ClientOpts E) (query : ActionOpts E) :
    RetryConfig E :=
  match query.retry with
  | .Set r => r
  | .Inherrit =>
    match client.query.bind (fun cq => cq.retry.as_option) with
    | some r => r
    | none =>
      match client.retry with
      | .Set r => r
      | .Inherrit => RetryConfig.const_default

/-- Cascade resolution as worded by the spec (section 4.5): an ordered
list of layers, each either unset or set; the first set layer wins, and
an empty cascade yields the process default.  Used only to state the
refinement theorems for the resolver. -/
def firstSet {T : Type} : List (Option T) → T → T
  | [], dflt => dflt
  | some v :: _, _ => v
  | none :: rest, dflt => firstSet rest dflt

/-! ## Observable cell (src/listenable.rs)

Listener identity in the source is pointer identity of boxed closures
(`HashBoxPtr`).  Addresses are modelled abstractly: every allocation gets
a fresh index, and an address records whether it designates a stack slot
(the address of a local variable, as produced by `ptr::addr_of!(boxed)`
on the local `Box` variable) or the heap block owned by a `Box` (as
produced by `ptr::addr_of!(*boxed)`).  A live heap block and a stack slot
are distinct allocations and never share an address.  Listener closures
themselves are opaque; each carries a numeric `tag` naming which closure
it is, and a notification records which tags were invoked with which
value. -/

inductive Addr where
  | stack (n : Nat)
  | heap (n : Nat)
deriving DecidableEq, Repr

/-- `Listener` (src/listenable.rs lines 13-16); `drop_f` omitted (no claim
touches teardown closures).  `addr` is the address the `HashSet` keys the
listener by: the heap block of the boxed closure. -/
structure Listener where
  addr : Addr
  tag : Nat
deriving DecidableEq, Repr

/-- `Handle` (src/listenable.rs lines 45-47). -/
structure Handle where
  ptr : Addr
deriving DecidableEq, Repr

/-- `Listenable<T>` (src/listenable.rs lines 40-43).  `nextAlloc` is the
allocation counter supplying fresh addresses; `log` is the ghost
notification trace: each `notify` appends the pair (tags of the listeners
invoked, value they received). -/
structure Listenable (T : Type) where
  value : T
  listeners : List Listener
  nextAlloc : Nat
  log : List (List Nat × T)
deriving DecidableEq, Repr

/-- `Listenable::new` (src/listenable.rs lines 50-55). -/
def Listenable.new {T : Type} (value : T) : Listenable T :=
  ⟨value, [], 0, []⟩

/-- `Listenable::add_listener` (src/listenable.rs lines 57-65).  The
source boxes the closure (heap block, address `heap n`), stores the
listener keyed by that heap block, but computes the returned handle as
`ptr::addr_of!(boxed)` — the address of the local variable `boxed`
itself, a stack slot (`stack (n+1)`), not the heap block. -/
def Listenable.add_listener {T : Type} (l : Listenable T) (tag : Nat) :
    Listenable T × Handle :=
  ({ l with
      listeners := l.listeners ++ [⟨Addr.heap l.nextAlloc, tag⟩],
      nextAlloc := l.nextAlloc + 2 },
   ⟨Addr.stack (l.nextAlloc + 1)⟩)

/-- `Listenable::remove_listener` (src/listenable.rs lines 73-77): retains
every listener whose boxed-closure heap address (`ptr::addr_of!(*e.f.0)`)
differs from the handle's pointer, then returns the new length. -/
def Listenable.remove_listener {T : Type} (l : Listenable T) (handle : Handle) :
    Listenable T × Nat :=
  let remaining := l.listeners.filter (fun e => !(e.addr == handle.ptr))
  ({ l with listeners := remaining }, remaining.length)

/-- `Listenable::notify` (src/listenable.rs lines 105-109): invoke every
listener with a clone of the current value (recorded in the ghost log). -/
def Listenable.notify {T : Type} (l : Listenable T) : Listenable T :=
  { l with log := l.log ++ [(l.listeners.map Listener.tag, l.value)] }

/-- `Listenable::set` (src/listenable.rs lines 93-97): replace the value,
notify, return the old value. -/
def Listenable.set {T : Type} (l : Listenable T) (value : T) :
    Listenable T × T :=
  (Listenable.notify { l with value := value }, l.value)

/-- `Listenable::modify` (src/listenable.rs lines 99-103); the closure's
return value is not needed by any claim and is dropped. -/
def Listenable.modify {T : Type} (l : Listenable T) (f : T → T) : Listenable T :=
  Listenable.notify { l with value := f l.value }

/-- `Listenable::set_cmp` (src/listenable.rs lines 86-90): set and notify
only when the new value differs. -/
def Listenable.set_cmp {T : Type} [DecidableEq T] (l : Listenable T) (value : T) :
    Listenable T :=
  if l.value ≠ value then (Listenable.set l value).1 else l

/-! ## Eviction controller (src/cache.rs)

`CacheControl` holds `active: Listenable<bool>` whose single listener is
the `handle_active` closure, plus the closure-captured state: the shared
`active` cell and the handle of the last spawned timer task.  The
embedding flattens this to the activity flag and the pending timer's fire
time.  Activation calls `notify_waiters`, after which the timer task wakes,
re-checks the activity flag and exits without removing the entry, so an
activation cancels the pending timer; deactivation spawns a fresh timer
task sleeping for the configured duration. -/

structure CacheControlState where
  active : Bool
  timer : Option Nat
deriving DecidableEq, Repr

/-- The `handle_active` closure inside `CacheControl::new`
(src/cache.rs lines 49-87), for a finite cache duration `d`: on
activation cancel the pending timer; on deactivation spawn a timer that
fires at `now + d`. -/
def CacheControlState.handle_active (d now : Nat) (_s : CacheControlState)
    (new_active : Bool) : CacheControlState :=
  if new_active then ⟨true, none⟩ else ⟨false, some (now + d)⟩

/-- `CacheControl::new` (src/cache.rs lines 33-95): for
`CacheTime::Infinite` no timer machinery is installed; for
`CacheTime::Duration(d)` it calls `handle_active(false)` before
returning, so the idle timer is already running when the entry is
created. -/
def CacheControl.new (cache_time : CacheTime) (now : Nat) : CacheControlState :=
  match cache_time with
  | .Infinite => ⟨false, none⟩
  | .Duration d => CacheControlState.handle_active d now ⟨false, none⟩ false

/-- `CacheControl::set_active` (src/cache.rs lines 101-103) via
`Listenable::set_cmp`: the `handle_active` listener runs only when the
activity flag actually changes. -/
def CacheControlState.set_active (d now : Nat) (s : CacheControlState)
    (a : Bool) : CacheControlState :=
  if s.active == a then s else CacheControlState.handle_active d now s a

/-- The timer task body (src/cache.rs lines 63-83): when the sleep
elapses at time `t` the task re-checks the activity flag and removes the
owning cache entry from the registry only if still inactive. -/
def CacheControlState.fires_at (s : CacheControlState) (t : Nat) : Bool :=
  s.timer == some t && !s.active

/-! ## Status and result types (src/status.rs) -/

inductive LoadingStatus where
  | Loading
  | Paused
deriving DecidableEq, Repr

/-- `LoadingStatus::from_online` (src/status.rs lines 37-43). -/
def LoadingStatus.from_online : Bool → LoadingStatus
  | true => .Loading
  | false => .Paused

inductive QueryStatus where
  | Loading
  | Paused
  | Idle
deriving DecidableEq, Repr

/-- `LoadingStatus::as_query` (src/status.rs lines 45-51). -/
def LoadingStatus.as_query : LoadingStatus → QueryStatus
  | .Loading => .Loading
  | .Paused => .Paused

/-- `QueryData<R, E>` (src/status.rs lines 69-76); `Rc` transparent. -/
inductive QueryData (R E : Type) where
  | Loading (s : LoadingStatus)
  | Ok (r : R) (s : QueryStatus)
  | Err (e : E) (s : QueryStatus)
deriving DecidableEq, Repr

instance instDecEqExcept {E R : Type} [DecidableEq E] [DecidableEq R] :
    DecidableEq (Except E R) := fun a b =>
  match a, b with
  | .ok a, .ok b =>
      if h : a = b then isTrue (by rw [h]) else isFalse (by simp [h])
  | .error a, .error b =>
      if h : a = b then isTrue (by rw [h]) else isFalse (by simp [h])
  | .ok _, .error _ => isFalse (by simp)
  | .error _, .ok _ => isFalse (by simp)

/-- `FetchResult<R, E>` (src/status.rs lines 166-176).  `Fresh` carries
shared pointers, `Stale` the raw result; both become `Except E R`.  The
`NoConnection` variant's awaitable handle (resolved by a spawned
continuation once connectivity returns) is outside the modelled
fragment, so the constructor is bare. -/
inductive FetchResult (R E : Type) where
  | Fresh (r : Except E R)
  | Stale (r : Except E R)
  | NoConnection
  | Cancelled
deriving DecidableEq, Repr

/-- `MutateError<E>` (src/status.rs lines 180-185). -/
inductive MutateError (E : Type) where
  | FnError (e : E)
  | NoConnection
deriving DecidableEq, Repr

/-! ## Cache entry (src/query.rs lines 20-25) -/

/-- `FetchMeta<R, E>`: the per-(query, cache) registry entry.
`future_handles` (a set of handles of spawned connectivity-waiting
tasks) is modelled by its size: only its insertions matter to the
claims. -/
structure FetchMeta (R E : Type) where
  data : Listenable (QueryData R E)
  id : Nat
  future_handles : Nat
  cache_control : CacheControlState
deriving DecidableEq, Repr

/-- `QueryClient::new_fetch_meta` (src/client.rs lines 479-496): a fresh
entry with `QueryData::default()` (`Loading` with status from
`is_online`), a fresh generation id from the process-wide counter
(`freshId`), no pending handles, and a `CacheControl` built from the
resolved cache time.  `now` is the creation instant, `online` the
connectivity probe's answer. -/
def new_fetch_meta {R E : Type} (client : ClientOpts E) (qopts : ActionOpts E)
    (freshId now : Nat) (online : Bool) : FetchMeta R E :=
  { data := Listenable.new (QueryData.Loading (LoadingStatus.from_online online)),
    id := freshId,
    future_handles := 0,
    cache_control := CacheControl.new (resolve_cache_time client qopts .Query) now }

/-! ## Fetch orchestrator (src/client.rs lines 522-689)

`fetch_with_arg_inner` is one recursive async routine; it is embedded in
three pieces mirroring its three synchronous sections, joined by a
fuel-indexed recursion.  The cache state visible to the fetch is the
entry for its (query, cache) pair: `Option (FetchMeta R E)`.  The
`wasm32` configuration is embedded (the claims concern connectivity
behaviour; on the engine side `is_online` is constantly `true` and the
pause branch is compiled out, which coincides with instantiating
`onlineAt` to `true`). -/

/-- The status-update arm of the claim-check closure
(src/client.rs lines 548-564): publish the new loading status
idempotently (only notify on change). -/
def update_loading_status {R E : Type} (d : Listenable (QueryData R E))
    (new_status : LoadingStatus) : Listenable (QueryData R E) :=
  match d.value with
  | .Loading s =>
      if s ≠ new_status then (Listenable.set d (.Loading new_status)).1 else d
  | .Ok _ s =>
      if s ≠ new_status.as_query then
        Listenable.modify d (fun v =>
          match v with
          | .Ok r _ => .Ok r new_status.as_query
          | .Err e _ => .Err e new_status.as_query
          | .Loading s' => .Loading s')  -- `unreachable!()` in the source
      else d
  | .Err _ s =>
      if s ≠ new_status.as_query then
        Listenable.modify d (fun v =>
          match v with
          | .Ok r _ => .Ok r new_status.as_query
          | .Err e _ => .Err e new_status.as_query
          | .Loading s' => .Loading s')  -- `unreachable!()` in the source
      else d

/-- The claim check (src/client.rs lines 542-571): re-read the cache
entry; a vacant entry or a generation id differing from the captured
`id` means this fetch is superseded (`true`, state untouched); otherwise
publish the loading status and continue (`false`). -/
def claim_check {R E : Type} (entry : Option (FetchMeta R E)) (id : Nat)
    (new_status : LoadingStatus) : Bool × Option (FetchMeta R E) :=
  match entry with
  | none => (true, none)
  | some m =>
    if m.id ≠ id then (true, some m)
    else (false, some { m with data := update_loading_status m.data new_status })

/-- The `Retry` enum local to `fetch_with_arg_inner`
(src/client.rs lines 529-532). -/
inductive StepRetry (T : Type) where
  | Retry (d : Nat)
  | Return (t : T)

/-- The commit closure (src/client.rs lines 638-672): re-read the entry;
if it is occupied and its id still equals the captured `id`, write
`Ok(_, Idle)` on success, or on error consult the resolved retry config —
terminal `Err(_, Idle)` returning `Fresh(Err)` when no retry is
authorized, `Err(_, Loading)` and a `Retry(delay)` otherwise — and
publish the written data via `Listenable::set`; if the entry is vacant
or the id differs, leave it untouched and return `Stale(result)`.  The
third component is the ghost record of the data written by a
current-generation commit. -/
def fetch_commit {R E : Type} (entry : Option (FetchMeta R E)) (id count : Nat)
    (client : ClientOpts E) (qopts : ActionOpts E) (result : Except E R) :
    StepRetry (FetchResult R E) × Option (FetchMeta R E) × Option (QueryData R E) :=
  match entry with
  | some m =>
    if m.id = id then
      let step : QueryData R E × StepRetry (FetchResult R E) :=
        match result with
        | .ok r => (.Ok r .Idle, .Return (.Fresh (.ok r)))
        | .error e =>
          match (resolve_retry client qopts).retry_delay count e with
          | none => (.Err e .Idle, .Return (.Fresh (.error e)))
          | some d => (.Err e .Loading, .Retry d)
      (step.2, some { m with data := (Listenable.set m.data step.1).1 }, some step.1)
    else (.Return (.Stale result), some m, none)
  | none => (.Return (.Stale result), none, none)

/-- Output of a fetch run: the returned `FetchResult` (`none` only when
the fuel ran out, a model artifact — the source recursion is unbounded),
the final entry state, the ghost list of counts at which the query
function was executed, and the ghost list of current-generation commits
`(count, data written)`. -/
structure RunOut (R E : Type) where
  result : Option (FetchResult R E)
  state : Option (FetchMeta R E)
  invocations : List Nat
  commits : List (Nat × QueryData R E)
deriving DecidableEq, Repr

/-- `QueryClientInner::fetch_with_arg_inner` (src/client.rs
lines 522-689), wasm configuration, as a fuel-indexed recursion.
Per attempt `count`: sample `is_online` (`onlineAt count`) and build the
loading status; run the claim check (cancelled ⇒ `Cancelled`); resolve
the network mode, and when offline and the mode forbids trying, spawn a
connectivity-waiting continuation (recorded as one more
`future_handles`) and return `NoConnection`; otherwise await the query
function (`execAt count`) — the entry may change during this suspension
(`duringExec count`) — then run the commit; a `Retry d` sleeps for `d`
(the entry may change during the sleep, `duringSleep count`) and
recurses with `count + 1` (`checked_add`: the count stays far below
`u32::MAX` in every modelled run). -/
def fetch_with_arg_inner {R E : Type} (client : ClientOpts E) (qopts : ActionOpts E)
    (onlineAt : Nat → Bool) (execAt : Nat → Except E R)
    (duringExec duringSleep : Nat → Option (FetchMeta R E) → Option (FetchMeta R E)) :
    Nat → Option (FetchMeta R E) → Nat → Nat → RunOut R E
  | 0, st, _, _ => ⟨none, st, [], []⟩
  | fuel + 1, st, id, count =>
    let online := onlineAt count
    let new_status := LoadingStatus.from_online online
    let checked := claim_check st id new_status
    if checked.1 then ⟨some .Cancelled, checked.2, [], []⟩
    else
      let network_mode := resolve_network_mode client qopts .Query
      if !online && !network_mode.should_try count then
        ⟨some .NoConnection,
         checked.2.map (fun m => { m with future_handles := m.future_handles + 1 }),
         [], []⟩
      else
        let result := execAt count
        let st2 := duringExec count checked.2
        let committed := fetch_commit st2 id count client qopts result
        match committed.1 with
        | .Return r =>
            ⟨some r, committed.2.1, [count], (committed.2.2.map (fun d => (count, d))).toList⟩
        | .Retry _ =>
            let st4 := duringSleep count committed.2.1
            let rest := fetch_with_arg_inner client qopts onlineAt execAt
              duringExec duringSleep fuel st4 id (count + 1)
            ⟨rest.result, rest.state, count :: rest.invocations,
             (committed.2.2.map (fun d => (count, d))).toList ++ rest.commits⟩

/-- `QueryClient::fetch_with_arg` (src/client.rs lines 229-243): look up
the entry (inserting a fresh `new_fetch_meta` when vacant), capture its
generation id, and run `fetch_with_arg_inner` with the attempt counter
starting at 1. -/
def fetch_with_arg {R E : Type} (client : ClientOpts E) (qopts : ActionOpts E)
    (onlineAt : Nat → Bool) (execAt : Nat → Except E R)
    (duringExec duringSleep : Nat → Option (FetchMeta R E) → Option (FetchMeta R E))
    (fuel : Nat) (st : Option (FetchMeta R E)) (freshId now : Nat) : RunOut R E :=
  let entry : Option (FetchMeta R E) × Nat :=
    match st with
    | some m => (some m, m.id)
    | none => (some (new_fetch_meta client qopts freshId now (onlineAt 1)), freshId)
  fetch_with_arg_inner client qopts onlineAt execAt duringExec duringSleep
    fuel entry.1 entry.2 1

/-! ## Mutation execution -/

/-- Lifecycle callbacks for a mutation (`MutationCallbacks`,
src/mutation.rs lines 114-119).  `on_mutate` produces the optional
context value handed to the other hooks; the other hooks are user
closures whose own effects are opaque, so only their presence is
recorded — their invocations appear in the ghost event trace. -/
structure MCallbacks (P C : Type) where
  on_mutate : Option (P → Option C)
  on_success : Bool
  on_error : Bool
  on_settled : Bool

/-- One observable event of a mutation run: the hook invoked, with the
context value it received where applicable. -/
inductive MutEvent (C : Type) where
  | OnMutate
  | ExecFn
  | OnSuccess (cx : Option C)
  | OnError (cx : Option C)
  | OnSettled (cx : Option C)
deriving DecidableEq, Repr

/-- The context value produced by `on_mutate` (or `None` when the hook is
absent). -/
def mutateContext {P C : Type} (cb : MCallbacks P C) (value : P) : Option C :=
  match cb.on_mutate with
  | some f => f value
  | none => none

/-- Modelled from the spec: `QueryClient::mutate`.  The browser-side body
of `mutate` (src/client.rs lines 270-400) is commented out and ends in
`todo!()`, and the engine-side variant always panics, so the deciding
code is missing from the sources; this definition follows the spec's
words (section 6, Mutate): run `on_mutate` to obtain the user context,
fail with `MutateError::NoConnection` when connectivity is down,
otherwise execute the mutation function with the given value
(`fnResult` is its outcome) and return `Ok` with a shared pointer to the
result or `Err(MutateError::FnError(..))`, invoking the provided
`on_success`/`on_error` and `on_settled` hooks around the write, each
receiving the context value produced by `on_mutate`. -/
def mutate {P R E C : Type} (online : Bool) (cb : MCallbacks P C)
    (fnResult : Except E R) (value : P) :
    Except (MutateError E) R × List (MutEvent C) :=
  let cx := mutateContext cb value
  let ev0 : List (MutEvent C) :=
    match cb.on_mutate with
    | some _ => [.OnMutate]
    | none => []
  if !online then (.error .NoConnection, ev0)
  else
    match fnResult with
    | .ok r =>
        (.ok r,
         ev0 ++ [.ExecFn] ++ (if cb.on_success then [.OnSuccess cx] else [])
             ++ (if cb.on_settled then [.OnSettled cx] else []))
    | .error e =>
        (.error (.FnError e),
         ev0 ++ [.ExecFn] ++ (if cb.on_error then [.OnError cx] else [])
             ++ (if cb.on_settled then [.OnSettled cx] else []))

/-! ## Concrete example values used by witnesses and counterexamples -/

/-- A concrete cache entry with the given generation id. -/
def exMeta (id : Nat) : FetchMeta Nat Nat :=
  ⟨Listenable.new (.Loading .Loading), id, 0, ⟨false, none⟩⟩

/-- Concrete mutation callbacks providing every hook. -/
def cbEx : MCallbacks Nat Nat :=
  ⟨some (fun v => some (v + 1)), true, true, true⟩

/-- A concrete fetch run: entry with id 7, retry policy `Num 1` with a
constant 5 ns delay, connectivity up, a query function that always
returns `Err(3)`, and a cache from which the entry is removed (as
`remove_query` or eviction would) while the fetch sleeps before its
retry.  The first attempt's commit finds the generation id still
current and writes `Err(3, Loading)`; the retry's claim check then finds
the entry gone and the call returns `Cancelled`. -/
def c1run : RunOut Nat Nat :=
  fetch_with_arg_inner ClientOpts.new
    ⟨.Inherrit, .Inherrit, .Set ⟨.Num 1, .Always 5⟩⟩
    (fun _ => true) (fun _ => .error 3)
    (fun _ s => s) (fun _ _ => none) 3 (some (exMeta 7)) 7 1

/-! ## Theorems -/

/-- Claim C5: for each of cache time, network mode and retry config,
resolution returns the first layer whose option is `Set`, trying the
per-action option, then the client's per-category (query vs. mutation)
layer, then the client's global option, then the process-wide type
default; an `Inherrit` layer is skipped and resolution falls through. -/
theorem config_cascade_first_set {E : Type} (client : ClientOpts E)
    (action : ActionOpts E) (atype : ActionType) :
    resolve_cache_time client action atype
      = firstSet [action.cache_time.as_option,
          (categoryOpts client atype).bind (fun c => c.cache_time.as_option),
          client.cache_time.as_option] CacheTime.const_default
    ∧ resolve_network_mode client action atype
      = firstSet [action.network_mode.as_option,
          (categoryOpts client atype).bind (fun c => c.network_mode.as_option),
          client.network_mode.as_option] NetworkMode.const_default
    ∧ resolve_retry client action
      = firstSet [action.retry.as_option,
          client.query.bind (fun cq => cq.retry.as_option),
          client.retry.as_option] RetryConfig.const_default := by
  refine ⟨?_, ?_, ?_⟩
  · unfold resolve_cache_time resolve_cache_time_inner
    cases ha : action.cache_time.as_option <;>
      cases hb : (categoryOpts client atype).bind (fun c => c.cache_time.as_option) <;>
        cases hc : client.cache_time.as_option <;> simp [firstSet]
  · unfold resolve_network_mode resolve_network_mode_inner
    cases ha : action.network_mode.as_option <;>
      cases hb : (categoryOpts client atype).bind (fun c => c.network_mode.as_option) <;>
        cases hc : client.network_mode.as_option <;> simp [firstSet]
  · unfold resolve_retry
    cases hq : action.retry with
    | Set r => simp [SetOption.as_option, firstSet]
    | Inherrit =>
      cases hcq : client.query.bind (fun cq => cq.retry.as_option) with
      | some r => simp [SetOption.as_option, firstSet]
      | none =>
        cases hc : client.retry <;> simp [SetOption.as_option, firstSet]

/-- Claim C6: when every configuration layer is `Inherrit` (and the
per-category layers are absent or fully inherited), resolution yields
the fixed process defaults: a cache duration of 5 minutes, network mode
`Online`, and a retry configuration of `Num 3` with exponential backoff
from 1000 ms up to a 30 s maximum. -/
theorem all_inherrit_resolves_to_defaults {E : Type} (client : ClientOpts E)
    (action : ActionOpts E) (atype : ActionType)
    (hct : client.cache_time = .Inherrit)
    (hnm : client.network_mode = .Inherrit)
    (hr : client.retry = .Inherrit)
    (hq : client.query = none ∨ client.query = some ActionOpts.new)
    (hm : client.mutation = none ∨ client.mutation = some ActionOpts.new)
    (ha : action = ActionOpts.new) :
    resolve_cache_time client action atype = .Duration (durFromSecs 300)
    ∧ resolve_network_mode client action atype = .Online
    ∧ resolve_retry client action
        = ⟨.Num 3, .Backoff (durFromMillis 1000) (durFromSecs 30)⟩
    ∧ CacheTime.const_default = .Duration (durFromSecs 300)
    ∧ NetworkMode.const_default = .Online
    ∧ RetryConfig.const_default (E := E)
        = ⟨.Num 3, .Backoff (durFromMillis 1000) (durFromSecs 30)⟩ := by
  subst ha
  have h300 : durFromSecs (5 * 60) = durFromSecs 300 := by norm_num
  refine ⟨?_, ?_, ?_, ?_, rfl, rfl⟩
  · rcases hq with h | h <;> rcases hm with h' | h' <;> cases atype <;>
      simp [resolve_cache_time, resolve_cache_time_inner, categoryOpts,
        ActionOpts.new, SetOption.as_option, hct, h, h',
        CacheTime.const_default, h300]
  · rcases hq with h | h <;> rcases hm with h' | h' <;> cases atype <;>
      simp [resolve_network_mode, resolve_network_mode_inner, categoryOpts,
        ActionOpts.new, SetOption.as_option, hnm, h, h',
        NetworkMode.const_default]
  · rcases hq with h | h <;>
      simp [resolve_retry, ActionOpts.new, SetOption.as_option, hr, h,
        RetryConfig.const_default, RetryPolicy.const_default,
        RetryDelay.const_default]
  · simp [CacheTime.const_default, h300]

/-- Witness for C6 at a concrete all-inherit client. -/
theorem all_inherrit_resolves_to_defaults_witness :
    resolve_cache_time (E := Nat) ClientOpts.new ActionOpts.new .Query
      = .Duration (durFromSecs 300)
    ∧ resolve_network_mode (E := Nat) ClientOpts.new ActionOpts.new .Query
      = .Online
    ∧ resolve_retry (E := Nat) ClientOpts.new ActionOpts.new
      = ⟨.Num 3, .Backoff (durFromMillis 1000) (durFromSecs 30)⟩
    ∧ CacheTime.const_default = .Duration (durFromSecs 300)
    ∧ NetworkMode.const_default = .Online
    ∧ RetryConfig.const_default (E := Nat)
      = ⟨.Num 3, .Backoff (durFromMillis 1000) (durFromSecs 30)⟩ :=
  all_inherrit_resolves_to_defaults ClientOpts.new ActionOpts.new .Query
    rfl rfl rfl (Or.inl rfl) (Or.inl rfl) rfl

/-- Claim C2: at the start of every fetch attempt (each recursion level
of `fetch_with_arg_inner`, retries included), an absent cache entry or a
generation id differing from the captured one makes the fetch return
`Cancelled` without executing the query function and without modifying
the cache entry. -/
theorem superseded_fetch_cancelled {R E : Type} (client : ClientOpts E)
    (qopts : ActionOpts E) (onlineAt : Nat → Bool) (execAt : Nat → Except E R)
    (dE dS : Nat → Option (FetchMeta R E) → Option (FetchMeta R E))
    (fuel : Nat) (st : Option (FetchMeta R E)) (id count : Nat)
    (h : st = none ∨ ∃ m, st = some m ∧ m.id ≠ id) :
    fetch_with_arg_inner client qopts onlineAt execAt dE dS (fuel + 1) st id count
      = ⟨some .Cancelled, st, [], []⟩ := by
  rcases h with h | ⟨m, hm, hne⟩
  · subst h; simp [fetch_with_arg_inner, claim_check]
  · subst hm; simp [fetch_with_arg_inner, claim_check, hne]

/-- Witness for C2: a concrete fetch against an entry whose id differs
from the captured one. -/
theorem superseded_fetch_cancelled_witness :
    fetch_with_arg_inner (R := Nat) (E := Nat) ClientOpts.new ActionOpts.new
        (fun _ => true) (fun _ => .ok 0) (fun _ s => s) (fun _ s => s)
        1 (some (exMeta 9)) 7 1
      = ⟨some .Cancelled, some (exMeta 9), [], []⟩ :=
  superseded_fetch_cancelled ClientOpts.new ActionOpts.new
    (fun _ => true) (fun _ => .ok 0) (fun _ s => s) (fun _ s => s)
    0 (some (exMeta 9)) 7 1 (Or.inr ⟨exMeta 9, rfl, by decide⟩)

/-- Counterexample to C4 as stated: under the default backoff
(initial 1000 ms, maximum 30 s) with an always-authorizing policy, at
`failure_count = 33` the code computes `2_u32.pow(32)`, which overflows
`u32` (wrapping to 0), so the delay is 0 — not the claimed
`min(initial * 2 ^ 32, maximum) = 30 s` that saturating multiplication
alone would give. -/
theorem backoff_delay_u32_overflow :
    RetryConfig.retry_delay (E := Nat)
        ⟨.Infinite, .Backoff (durFromMillis 1000) (durFromSecs 30)⟩ 33 0
      = some 0
    ∧ min (durSatMul (durFromMillis 1000) (2 ^ (33 - 1))) (durFromSecs 30)
      = durFromSecs 30
    ∧ (0 : Nat) ≠ durFromSecs 30 := by
  refine ⟨?_, ?_, by decide⟩
  · simp [RetryConfig.retry_delay, durSatMul, u32MOD]
  · have : durSatMul (durFromMillis 1000) (2 ^ (33 - 1))
        = 1000000000 * 2 ^ 32 := by
      simp only [durSatMul, durFromMillis, durMAX]
      norm_num
    rw [this]
    simp only [durFromSecs]
    norm_num

/-- Claim C4 (amended): for every `failure_count ≥ 1` for which a retry
is authorized, the delay under `Backoff { initial, maximum }` equals
`min(initial.saturating_mul((2 ^ (failure_count - 1)) mod 2 ^ 32), maximum)`
— which coincides with the claimed
`min(initial.saturating_mul(2 ^ (failure_count - 1)), maximum)` for
`failure_count ≤ 32`, but is 0 for `failure_count ≥ 33` because the u32
exponentiation overflows (wrapping in release, panicking in debug);
under `Always(d)` it equals `d`; under `DelayFn(f)` it equals
`f(failure_count, error)`. -/
theorem retry_delay_formula {E : Type} (cfg : RetryConfig E) (fc : Nat)
    (e : E) (d : Nat) (hfc : 1 ≤ fc) (h : cfg.retry_delay fc e = some d) :
    (∀ a, cfg.delay = .Always a → d = a)
    ∧ (∀ f, cfg.delay = .DelayFn f → d = f fc e)
    ∧ (∀ i mx, cfg.delay = .Backoff i mx →
        d = min (durSatMul i ((2 ^ (fc - 1)) % u32MOD)) mx
        ∧ (fc ≤ 32 → d = min (durSatMul i (2 ^ (fc - 1))) mx)
        ∧ (33 ≤ fc → d = 0)) := by
  obtain ⟨pol, dl⟩ := cfg
  cases dl with
  | Always a =>
    have hd : d = a := by
      unfold RetryConfig.retry_delay at h
      split at h <;> split at h <;> simp_all
    refine ⟨?_, ?_, ?_⟩
    · intro a' ha'; cases ha'; exact hd
    · intro f hf; cases hf
    · intro i mx hb; cases hb
  | DelayFn f =>
    have hd : d = f fc e := by
      unfold RetryConfig.retry_delay at h
      split at h <;> split at h <;> simp_all
    refine ⟨?_, ?_, ?_⟩
    · intro a ha; cases ha
    · intro f' hf'; cases hf'; exact hd
    · intro i mx hb; cases hb
  | Backoff i mx =>
    have hd : d = min (durSatMul i ((2 ^ (fc - 1)) % u32MOD)) mx := by
      unfold RetryConfig.retry_delay at h
      split at h <;> split at h <;> simp_all
    refine ⟨?_, ?_, ?_⟩
    · intro a ha; cases ha
    · intro f hf; cases hf
    · intro i' mx' hb
      cases hb
      refine ⟨hd, ?_, ?_⟩
      · intro h32
        have hsmall : 2 ^ (fc - 1) < u32MOD := by
          have h2 : 2 ^ (fc - 1) < 2 ^ 32 :=
            Nat.pow_lt_pow_right Nat.one_lt_two (by omega)
          simpa [u32MOD] using h2
        rw [Nat.mod_eq_of_lt hsmall] at hd
        exact hd
      · intro h33
        have hdvd : u32MOD ∣ 2 ^ (fc - 1) := by
          have h2 : (2 : Nat) ^ 32 ∣ 2 ^ (fc - 1) := pow_dvd_pow 2 (by omega)
          simpa [u32MOD] using h2
        rw [Nat.mod_eq_zero_of_dvd hdvd] at hd
        simpa [durSatMul] using hd

/-- Witness for C4 (amended) at a concrete authorized retry. -/
theorem retry_delay_formula_witness :
    (1 ≤ 1 ∧ RetryConfig.retry_delay (E := Nat) ⟨.Infinite, .Always 7⟩ 1 0 = some 7)
    ∧ ∀ a, RetryDelay.Always (E := Nat) 7 = .Always a → 7 = a := by
  refine ⟨⟨le_refl 1, by decide⟩, ?_⟩
  exact (retry_delay_formula ⟨.Infinite, .Always 7⟩ 1 0 7 (le_refl 1) (by decide)).1

/-- Claim C8: `add_listener` stores the listener keyed by the heap
address of its boxed closure but builds the returned `Handle` from
`ptr::addr_of!(boxed)` — the stack address of the local `Box` variable —
so `remove_listener` with that handle compares a heap address against a
stack address, removes nothing, and returns the unchanged listener
count; a subsequent `set` still invokes the supposedly removed listener.
Evaluated here on a cell with a single listener (tag 5): removal returns
1, the listener survives, and `set 42` still notifies it. -/
theorem remove_listener_handle_mismatch :
    ((Listenable.new (0 : Nat)).add_listener 5).2.ptr = Addr.stack 1
    ∧ (((Listenable.new (0 : Nat)).add_listener 5).1).listeners
      = [⟨Addr.heap 0, 5⟩]
    ∧ ((((Listenable.new (0 : Nat)).add_listener 5).1).remove_listener
        ((Listenable.new (0 : Nat)).add_listener 5).2).2 = 1
    ∧ ((((Listenable.new (0 : Nat)).add_listener 5).1).remove_listener
        ((Listenable.new (0 : Nat)).add_listener 5).2).1.listeners
      = [⟨Addr.heap 0, 5⟩]
    ∧ (((((Listenable.new (0 : Nat)).add_listener 5).1).remove_listener
        ((Listenable.new (0 : Nat)).add_listener 5).2).1.set 42).1.log
      = [([5], 42)] := by
  decide

/-- Claim C7: with connectivity down, `should_try` lets `Always` proceed
and `Online` pause — but the attempt counter is 1-based
(`fetch_with_arg` starts at 1, src/client.rs line 241) while
`should_try` only lets `OfflineFirst` proceed at `count == 0`, so an
`OfflineFirst` fetch pauses on its very first attempt without executing
the query function, behaving exactly like `Online`, contrary to the
variant's own documentation ("If there is no connection, try once and
pause if it fails").  The concrete runs below evaluate the fetch on an
existing entry (id 7) with the connectivity probe reporting down. -/
theorem offline_first_first_attempt_pauses :
    NetworkMode.should_try .OfflineFirst 1 = false
    ∧ NetworkMode.should_try .OfflineFirst 0 = true
    ∧ NetworkMode.should_try .Always 1 = true
    ∧ NetworkMode.should_try .Online 1 = false
    ∧ (fetch_with_arg (R := Nat) (E := Nat) ClientOpts.new
        ⟨.Inherrit, .Set .Always, .Inherrit⟩ (fun _ => false) (fun _ => .ok 42)
        (fun _ s => s) (fun _ s => s) 2 (some (exMeta 7)) 99 0).result
      = some (.Fresh (.ok 42))
    ∧ (fetch_with_arg (R := Nat) (E := Nat) ClientOpts.new
        ⟨.Inherrit, .Set .Always, .Inherrit⟩ (fun _ => false) (fun _ => .ok 42)
        (fun _ s => s) (fun _ s => s) 2 (some (exMeta 7)) 99 0).invocations
      = [1]
    ∧ (fetch_with_arg (R := Nat) (E := Nat) ClientOpts.new
        ⟨.Inherrit, .Set .Online, .Inherrit⟩ (fun _ => false) (fun _ => .ok 42)
        (fun _ s => s) (fun _ s => s) 2 (some (exMeta 7)) 99 0).result
      = some .NoConnection
    ∧ (fetch_with_arg (R := Nat) (E := Nat) ClientOpts.new
        ⟨.Inherrit, .Set .Online, .Inherrit⟩ (fun _ => false) (fun _ => .ok 42)
        (fun _ s => s) (fun _ s => s) 2 (some (exMeta 7)) 99 0).invocations
      = []
    ∧ ((fetch_with_arg (R := Nat) (E := Nat) ClientOpts.new
        ⟨.Inherrit, .Set .Online, .Inherrit⟩ (fun _ => false) (fun _ => .ok 42)
        (fun _ s => s) (fun _ s => s) 2 (some (exMeta 7)) 99 0).state.map
          (fun m => m.data.value))
      = some (.Loading .Paused)
    ∧ (fetch_with_arg (R := Nat) (E := Nat) ClientOpts.new
        ⟨.Inherrit, .Set .OfflineFirst, .Inherrit⟩ (fun _ => false) (fun _ => .ok 42)
        (fun _ s => s) (fun _ s => s) 2 (some (exMeta 7)) 99 0).result
      = some .NoConnection
    ∧ (fetch_with_arg (R := Nat) (E := Nat) ClientOpts.new
        ⟨.Inherrit, .Set .OfflineFirst, .Inherrit⟩ (fun _ => false) (fun _ => .ok 42)
        (fun _ s => s) (fun _ s => s) 2 (some (exMeta 7)) 99 0).invocations
      = [] := by
  decide

/-- Claim C10: every cache entry whose resolved cache time is a finite
`Duration d` starts Inactive with its idle eviction timer already
running from the moment `new_fetch_meta` creates it —
`CacheControl::new` invokes the timer-starting handler with
`active = false` before returning — so an entry that never gains a
subscriber has a timer that fires (and removes the entry) at
`now + d`. -/
theorem fresh_entry_idle_timer_running {R E : Type} (client : ClientOpts E)
    (qopts : ActionOpts E) (freshId now d : Nat) (online : Bool)
    (h : resolve_cache_time client qopts .Query = .Duration d) :
    (new_fetch_meta (R := R) client qopts freshId now
        online).cache_control.active = false
    ∧ (new_fetch_meta (R := R) client qopts freshId now
        online).cache_control.timer = some (now + d)
    ∧ (new_fetch_meta (R := R) client qopts freshId now
        online).cache_control.fires_at (now + d) = true
    ∧ CacheControl.new (.Duration d) now = ⟨false, some (now + d)⟩ := by
  simp [new_fetch_meta, h, CacheControl.new, CacheControlState.handle_active,
    CacheControlState.fires_at]

/-- Witness for C10: an all-inherit configuration resolves to the default
5-minute cache time, and the fresh entry's timer fires 300 s after
creation. -/
theorem fresh_entry_idle_timer_running_witness :
    (new_fetch_meta (R := Nat) (E := Nat) ClientOpts.new ActionOpts.new 7 0
        true).cache_control.timer = some (0 + durFromSecs 300)
    ∧ (new_fetch_meta (R := Nat) (E := Nat) ClientOpts.new ActionOpts.new 7 0
        true).cache_control.fires_at (0 + durFromSecs 300) = true :=
  ⟨(fresh_entry_idle_timer_running ClientOpts.new ActionOpts.new 7 0
      (durFromSecs 300) true (by decide)).2.1,
   (fresh_entry_idle_timer_running ClientOpts.new ActionOpts.new 7 0
      (durFromSecs 300) true (by decide)).2.2.1⟩

/-- Claim C9 (the deciding code is absent from the sources, so `mutate`
is modelled from the spec): `mutate` executes the mutation function with
the given value and returns `Ok` with the shared result on success, or
`Err(MutateError::FnError(..))` on failure, `Err(MutateError::NoConnection)`
when connectivity is down; each provided
`on_mutate`/`on_success`/`on_error`/`on_settled` hook is invoked around
the write, receiving the context value produced by `on_mutate`. -/
theorem mutate_result_and_hooks {P R E C : Type} (online : Bool)
    (cb : MCallbacks P C) (fnResult : Except E R) (value : P) :
    (online = false →
      (mutate online cb fnResult value).1 = .error .NoConnection)
    ∧ (online = true → ∀ r, fnResult = .ok r →
        (mutate online cb fnResult value).1 = .ok r
        ∧ MutEvent.ExecFn ∈ (mutate online cb fnResult value).2
        ∧ (cb.on_success = true →
            MutEvent.OnSuccess (mutateContext cb value)
              ∈ (mutate online cb fnResult value).2)
        ∧ (cb.on_settled = true →
            MutEvent.OnSettled (mutateContext cb value)
              ∈ (mutate online cb fnResult value).2))
    ∧ (online = true → ∀ e, fnResult = .error e →
        (mutate online cb fnResult value).1 = .error (.FnError e)
        ∧ MutEvent.ExecFn ∈ (mutate online cb fnResult value).2
        ∧ (cb.on_error = true →
            MutEvent.OnError (mutateContext cb value)
              ∈ (mutate online cb fnResult value).2)
        ∧ (cb.on_settled = true →
            MutEvent.OnSettled (mutateContext cb value)
              ∈ (mutate online cb fnResult value).2))
    ∧ (cb.on_mutate.isSome = true →
        MutEvent.OnMutate ∈ (mutate online cb fnResult value).2) := by
  refine ⟨?_, ?_, ?_, ?_⟩
  · intro hoff
    subst hoff
    simp [mutate]
  · intro hon r hr
    subst hon; subst hr
    cases hm : cb.on_mutate <;> simp [mutate, mutateContext, hm]
  · intro hon e he
    subst hon; subst he
    cases hm : cb.on_mutate <;> simp [mutate, mutateContext, hm]
  · intro hm
    cases hmm : cb.on_mutate with
    | none => rw [hmm] at hm; simp at hm
    | some f =>
      cases online <;> cases fnResult <;> simp [mutate, hmm]

/-- Witness for C9: a successful online mutation with every hook
provided. -/
theorem mutate_result_and_hooks_witness :
    (mutate (P := Nat) (R := Nat) (E := Nat) (C := Nat) true cbEx
        (.ok 4) 9).1 = .ok 4
    ∧ MutEvent.ExecFn ∈ (mutate (P := Nat) (R := Nat) (E := Nat) (C := Nat)
        true cbEx (.ok 4) 9).2
    ∧ MutEvent.OnSuccess (mutateContext cbEx 9)
      ∈ (mutate (P := Nat) (R := Nat) (E := Nat) (C := Nat) true cbEx
          (.ok 4) 9).2
    ∧ MutEvent.OnMutate ∈ (mutate (P := Nat) (R := Nat) (E := Nat) (C := Nat)
        true cbEx (.ok 4) 9).2 := by
  have h := mutate_result_and_hooks (P := Nat) (R := Nat) (E := Nat)
    (C := Nat) true cbEx (.ok 4) 9
  exact ⟨(h.2.1 rfl 4 rfl).1, (h.2.1 rfl 4 rfl).2.1,
    (h.2.1 rfl 4 rfl).2.2.1 rfl, h.2.2.2 rfl⟩

/-- Counterexample to C1 as stated: in `c1run` the query function's
result is committed while the captured generation id still equals the
entry's id (the ghost commit list records the current-generation write
of `Err(3, Loading)` at attempt 1), yet `fetch_with_arg_inner` returns
`Cancelled` — not `FetchResult::Fresh` — because the committed error
authorized a retry and the retry was superseded. -/
theorem current_commit_without_fresh_return :
    c1run.commits = [(1, .Err 3 .Loading)]
    ∧ c1run.result = some .Cancelled
    ∧ c1run.result ≠ some (.Fresh (.error 3)) := by
  decide

/-- Claim C1 (amended): when the result of the query function is
committed and the cache entry still exists with its id equal to the
captured generation id, the commit writes `QueryData::Ok`/`QueryData::Err`
into the entry's observable cell (notifying subscribers — `set` appends
one notification of the new value to every registered listener); the
attempt returns `Fresh(result)` when the result is `Ok` or when no retry
is authorized for the error, while an error whose retry is authorized is
written as `Err(_, Loading)` and the fetch retries instead of returning
`Fresh` (so the overall call may end differently, e.g. `Cancelled`).
When the entry has been removed or its id no longer matches at commit
time, the cached data is left unchanged and the raw result is returned
to that fetch's own caller as `Stale`. -/
theorem commit_current_write_and_result {R E : Type} (client : ClientOpts E)
    (qopts : ActionOpts E) (id count : Nat) (result : Except E R) :
    (∀ m : FetchMeta R E, m.id = id →
      (∀ r, result = .ok r →
        fetch_commit (some m) id count client qopts result
          = (.Return (.Fresh (.ok r)),
             some { m with data := (m.data.set (.Ok r .Idle)).1 },
             some (.Ok r .Idle)))
      ∧ (∀ e, result = .error e →
        ((resolve_retry client qopts).retry_delay count e = none →
          fetch_commit (some m) id count client qopts result
            = (.Return (.Fresh (.error e)),
               some { m with data := (m.data.set (.Err e .Idle)).1 },
               some (.Err e .Idle)))
        ∧ (∀ d, (resolve_retry client qopts).retry_delay count e = some d →
          fetch_commit (some m) id count client qopts result
            = (.Retry d,
               some { m with data := (m.data.set (.Err e .Loading)).1 },
               some (.Err e .Loading)))))
    ∧ (∀ m : FetchMeta R E, m.id ≠ id →
        fetch_commit (some m) id count client qopts result
          = (.Return (.Stale result), some m, none))
    ∧ fetch_commit none id count client qopts result
        = (.Return (.Stale result), none, none)
    ∧ (∀ (l : Listenable (QueryData R E)) (v : QueryData R E),
        ((l.set v).1).value = v
        ∧ ((l.set v).1).log = l.log ++ [(l.listeners.map Listener.tag, v)]) := by
  refine ⟨?_, ?_, rfl, ?_⟩
  · intro m hm
    refine ⟨?_, ?_⟩
    · intro r hr
      subst hr
      simp [fetch_commit, hm]
    · intro e he
      subst he
      refine ⟨?_, ?_⟩
      · intro hnone
        simp [fetch_commit, hm, hnone]
      · intro d hsome
        simp [fetch_commit, hm, hsome]
  · intro m hne
    simp [fetch_commit, hne]
  · intro l v
    exact ⟨rfl, rfl⟩

/-- Witness for C1 (amended): a current-generation `Ok` commit on a
concrete entry. -/
theorem commit_current_write_and_result_witness :
    fetch_commit (some (exMeta 7)) 7 1 (ClientOpts.new (E := Nat))
        ActionOpts.new (.ok 4)
      = (.Return (.Fresh (.ok 4)),
         some { exMeta 7 with data := ((exMeta 7).data.set (.Ok 4 .Idle)).1 },
         some (.Ok 4 .Idle)) :=
  ((commit_current_write_and_result ClientOpts.new ActionOpts.new 7 1
      (.ok 4)).1 (exMeta 7) rfl).1 4 rfl

/-- One attempt of an online fetch of an always-failing query whose
error authorizes no further retry: the terminal `Err(_, Idle)` is
published and `Fresh(Err)` returned. -/
theorem fetch_err_terminal {R E : Type} (client : ClientOpts E)
    (qopts : ActionOpts E) (e : E) (fuel id count : Nat) (m : FetchMeta R E)
    (hm : m.id = id)
    (hretry : (resolve_retry client qopts).retry_delay count e = none) :
    fetch_with_arg_inner client qopts (fun _ => true)
        (fun _ => .error e) (fun _ s => s) (fun _ s => s)
        (fuel + 1) (some m) id count
      = ⟨some (.Fresh (.error e)),
         some { m with data :=
           ((update_loading_status m.data .Loading).set (.Err e .Idle)).1 },
         [count], [(count, .Err e .Idle)]⟩ := by
  simp [fetch_with_arg_inner, claim_check, hm, fetch_commit, hretry,
    LoadingStatus.from_online]

/-- One attempt of an online fetch of an always-failing query whose
error authorizes a retry with delay `d`: `Err(_, Loading)` is published
and the fetch recurses with the incremented attempt counter. -/
theorem fetch_err_retry_step {R E : Type} (client : ClientOpts E)
    (qopts : ActionOpts E) (e : E) (fuel id count d : Nat) (m : FetchMeta R E)
    (hm : m.id = id)
    (hretry : (resolve_retry client qopts).retry_delay count e = some d) :
    fetch_with_arg_inner client qopts (fun _ => true)
        (fun _ => .error e) (fun _ s => s) (fun _ s => s)
        (fuel + 1) (some m) id count
      = ⟨(fetch_with_arg_inner client qopts (fun _ => true)
            (fun _ => .error e) (fun _ s => s) (fun _ s => s) fuel
            (some { m with data :=
              ((update_loading_status m.data .Loading).set (.Err e .Loading)).1 })
            id (count + 1)).result,
         (fetch_with_arg_inner client qopts (fun _ => true)
            (fun _ => .error e) (fun _ s => s) (fun _ s => s) fuel
            (some { m with data :=
              ((update_loading_status m.data .Loading).set (.Err e .Loading)).1 })
            id (count + 1)).state,
         count :: (fetch_with_arg_inner client qopts (fun _ => true)
            (fun _ => .error e) (fun _ s => s) (fun _ s => s) fuel
            (some { m with data :=
              ((update_loading_status m.data .Loading).set (.Err e .Loading)).1 })
            id (count + 1)).invocations,
         (count, .Err e .Loading) :: (fetch_with_arg_inner client qopts
            (fun _ => true) (fun _ => .error e) (fun _ s => s) (fun _ s => s)
            fuel (some { m with data :=
              ((update_loading_status m.data .Loading).set (.Err e .Loading)).1 })
            id (count + 1)).commits⟩ := by
  simp [fetch_with_arg_inner, claim_check, hm, fetch_commit, hretry,
    LoadingStatus.from_online]

/-- A fetch of an always-failing query under policy `Num n`, started at
attempt `count` with `count + k = n + 1` and enough fuel, performs
exactly attempts `count, …, n + 1`, ends with the terminal error
published, and returns `Fresh(Err)`. -/
theorem fetch_err_loop {R E : Type} (client : ClientOpts E)
    (qopts : ActionOpts E) (n : Nat) (dl : RetryDelay E) (e : E) (id : Nat)
    (hq : qopts.retry = .Set ⟨.Num n, dl⟩) (k : Nat) :
    ∀ (count fuel : Nat) (m : FetchMeta R E), m.id = id →
      count + k = n + 1 → k + 1 ≤ fuel →
      ∃ m' : FetchMeta R E,
        (fetch_with_arg_inner client qopts (fun _ => true)
            (fun _ => .error e) (fun _ s => s) (fun _ s => s)
            fuel (some m) id count).result = some (.Fresh (.error e))
        ∧ (fetch_with_arg_inner client qopts (fun _ => true)
            (fun _ => .error e) (fun _ s => s) (fun _ s => s)
            fuel (some m) id count).invocations = List.range' count (k + 1)
        ∧ (fetch_with_arg_inner client qopts (fun _ => true)
            (fun _ => .error e) (fun _ s => s) (fun _ s => s)
            fuel (some m) id count).state = some m'
        ∧ m'.id = id ∧ m'.data.value = .Err e .Idle := by
  have hres : resolve_retry client qopts = ⟨.Num n, dl⟩ := by
    simp [resolve_retry, hq]
  induction k with
  | zero =>
    intro count fuel m hm hcnt hfuel
    obtain ⟨f, rfl⟩ : ∃ f, fuel = f + 1 := ⟨fuel - 1, by omega⟩
    have hcount : count = n + 1 := by omega
    have hnone : (resolve_retry client qopts).retry_delay count e = none := by
      rw [hres]
      have hn : ¬(count ≤ n) := by omega
      simp [RetryConfig.retry_delay, hn]
    rw [fetch_err_terminal client qopts e f id count m hm hnone]
    exact ⟨_, rfl, by simp, rfl, hm, rfl⟩
  | succ k ih =>
    intro count fuel m hm hcnt hfuel
    obtain ⟨f, rfl⟩ : ∃ f, fuel = f + 1 := ⟨fuel - 1, by omega⟩
    have hle : count ≤ n := by omega
    obtain ⟨d, hsome⟩ :
        ∃ d, (resolve_retry client qopts).retry_delay count e = some d := by
      rw [hres]
      simp [RetryConfig.retry_delay, hle]
    rw [fetch_err_retry_step client qopts e f id count d m hm hsome]
    obtain ⟨m', h1, h2, h3, h4, h5⟩ := ih (count + 1) f
      { m with data :=
          ((update_loading_status m.data .Loading).set (.Err e .Loading)).1 }
      hm (by omega) (by omega)
    refine ⟨m', h1, ?_, h3, h4, h5⟩
    simp only [h2]
    rfl

/-- Claim C3: under `RetryPolicy::Num n`, `retry_delay` authorizes a
retry exactly when the 1-based failure count is at most `n`; hence a
fetch of a query function that always errors is invoked exactly `n + 1`
times (1 initial attempt plus `n` retries), after the last failure the
published data is the terminal `QueryData::Err(_, Idle)`, and the caller
receives `Fresh(Err(..))`. -/
theorem num_policy_total_attempts {R E : Type} (client : ClientOpts E)
    (qopts : ActionOpts E) (n : Nat) (dl : RetryDelay E) (e : E)
    (id fuel : Nat) (m : FetchMeta R E)
    (hq : qopts.retry = .Set ⟨.Num n, dl⟩) (hm : m.id = id)
    (hfuel : n + 1 ≤ fuel) :
    (∀ (fc : Nat) (err : E),
        ((RetryConfig.mk (.Num n) dl).retry_delay fc err).isSome = true
          ↔ fc ≤ n)
    ∧ ∃ m' : FetchMeta R E,
        (fetch_with_arg_inner client qopts (fun _ => true)
            (fun _ => .error e) (fun _ s => s) (fun _ s => s)
            fuel (some m) id 1).result = some (.Fresh (.error e))
        ∧ (fetch_with_arg_inner client qopts (fun _ => true)
            (fun _ => .error e) (fun _ s => s) (fun _ s => s)
            fuel (some m) id 1).invocations = List.range' 1 (n + 1)
        ∧ (fetch_with_arg_inner client qopts (fun _ => true)
            (fun _ => .error e) (fun _ s => s) (fun _ s => s)
            fuel (some m) id 1).invocations.length = n + 1
        ∧ (fetch_with_arg_inner client qopts (fun _ => true)
            (fun _ => .error e) (fun _ s => s) (fun _ s => s)
            fuel (some m) id 1).state = some m'
        ∧ m'.data.value = .Err e .Idle := by
  constructor
  · intro fc err
    by_cases hfc : fc ≤ n <;> simp [RetryConfig.retry_delay, hfc]
  · obtain ⟨m', h1, h2, h3, h4, h5⟩ :=
      fetch_err_loop client qopts n dl e id hq n 1 fuel m hm (by omega) hfuel
    exact ⟨m', h1, h2, by rw [h2]; simp, h3, h5⟩

/-- Witness for C3 at `Num 2`: exactly 3 invocations and a terminal
`Fresh(Err(3))`. -/
theorem num_policy_total_attempts_witness :
    (fetch_with_arg_inner (R := Nat) (E := Nat) ClientOpts.new
        ⟨.Inherrit, .Inherrit, .Set ⟨.Num 2, .Always 5⟩⟩ (fun _ => true)
        (fun _ => .error 3) (fun _ s => s) (fun _ s => s)
        3 (some (exMeta 7)) 7 1).invocations.length = 2 + 1
    ∧ (fetch_with_arg_inner (R := Nat) (E := Nat) ClientOpts.new
        ⟨.Inherrit, .Inherrit, .Set ⟨.Num 2, .Always 5⟩⟩ (fun _ => true)
        (fun _ => .error 3) (fun _ s => s) (fun _ s => s)
        3 (some (exMeta 7)) 7 1).result = some (.Fresh (.error 3)) := by
  obtain ⟨m', h1, h2, h3, h4, h5⟩ :=
    (num_policy_total_attempts ClientOpts.new
      ⟨.Inherrit, .Inherrit, .Set ⟨.Num 2, .Always 5⟩⟩ 2 (.Always 5) 3 7 3
      (exMeta 7) rfl rfl (by omega)).2
  exact ⟨h3, h1⟩

end RustQuery
